import Mathlib

/-!
Shallow embedding of the FFmux rendering core (render.js, textStyles.js):
timeline resolution, filter-graph construction, SRT subtitle parsing,
scaling-mode filter synthesis and progress translation, together with
theorems settling the specification claims about them.

JavaScript strings are modelled as `List Char` where character-level
scanning matters and as `String` where only concatenation matters.
JavaScript numbers are modelled as `ℚ`; `NaN` results are modelled as
`Option ℚ = none`.  A thrown exception is modelled as `Except`.
-/

attribute [local semireducible] Rat.add Rat.sub Rat.mul Rat.inv

namespace FFmux

/-- JS whitespace characters relevant to `String.prototype.trim`. -/
def isJsSpace (c : Char) : Bool :=
  (c = ' ') || (c = '\t') || (c = '\n') || (c = '\r') || (c = '\x0b') || (c = '\x0c')

/-- JS `String.prototype.trim`: drop whitespace from both ends. -/
def jsTrim (l : List Char) : List Char :=
  ((l.dropWhile isJsSpace).reverse.dropWhile isJsSpace).reverse

/-- Worker for `jsSplit`: scan left to right, splitting at each
non-overlapping occurrence of the (non-empty) separator `s0 :: ss`.  The
fuel argument only forces structural recursion; every step consumes at
least one character, so `jsSplit` never exhausts it. -/
def jsSplitAux (s0 : Char) (ss : List Char) : ℕ → List Char → List Char → List (List Char)
  | _, acc, [] => [acc.reverse]
  | 0, acc, l => [acc.reverse ++ l]
  | fuel + 1, acc, a :: rest =>
    if (s0 :: ss).isPrefixOf (a :: rest) then
      acc.reverse :: jsSplitAux s0 ss fuel [] (rest.drop ss.length)
    else
      jsSplitAux s0 ss fuel (a :: acc) rest

/-- JS `String.prototype.split` with a non-empty string separator `s0 :: ss`. -/
def jsSplit (s0 : Char) (ss : List Char) (l : List Char) : List (List Char) :=
  jsSplitAux s0 ss l.length [] l

/-- JS `content.replace(/\\n/g, '\n')`: rewrite each (leftmost,
non-overlapping) literal backslash-n pair into a newline character (line
117 of textStyles.js). -/
def normalizeNewlines : List Char → List Char
  | [] => []
  | [c] => [c]
  | c1 :: c2 :: rest =>
    if c1 = '\\' ∧ c2 = 'n' then '\n' :: normalizeNewlines rest
    else c1 :: normalizeNewlines (c2 :: rest)

/-- Spec-side input transformation for the newline-encoding claim: rewrite
each real newline into the two-character literal sequence backslash-n. -/
def encodeNewlines : List Char → List Char
  | [] => []
  | c :: rest =>
    if c = '\n' then '\\' :: 'n' :: encodeNewlines rest
    else c :: encodeNewlines rest

/-- Numeric value of the longest leading digit run; `none` when there is no
leading digit (JS `parseInt` returning `NaN`). -/
def digitsPrefixVal (l : List Char) : Option ℤ :=
  let ds := l.takeWhile Char.isDigit
  if ds = [] then none
  else some (ds.foldl (fun acc c => acc * 10 + ((c.toNat - 48 : ℕ) : ℤ)) 0)

/-- JS `parseInt` in base 10: optional leading whitespace and sign, then the
longest digit run; `NaN` is modelled as `none`. -/
def jsParseInt (l : List Char) : Option ℤ :=
  let l1 := l.dropWhile isJsSpace
  match l1 with
  | '-' :: rest => (digitsPrefixVal rest).map (fun z => -z)
  | '+' :: rest => digitsPrefixVal rest
  | _ => digitsPrefixVal l1

/-- JS `parseInt` applied to a possibly-undefined value
(`parseInt(undefined)` is `NaN`). -/
def jsParseIntOpt : Option (List Char) → Option ℤ
  | none => none
  | some s => jsParseInt s

/-- Whether `p` occurs as a contiguous subsequence of `l`. -/
def containsSeq (p : List Char) : List Char → Bool
  | [] => p.isEmpty
  | a :: rest => p.isPrefixOf (a :: rest) || containsSeq p rest

/-- Whether string `p` occurs as a substring of `s`. -/
def strContains (p s : String) : Bool :=
  containsSeq p.toList s.toList

/-- Single-character global replacement (one JS `.replace(/c/g, r)` step). -/
def repChar (c : Char) (r : List Char) (l : List Char) : List Char :=
  l.flatMap (fun a => if a = c then r else [a])

/-- `escapeText` from textStyles.js: escape backslashes, then single quotes,
colons, percent signs and newlines, in that order. -/
def escapeText (l : List Char) : List Char :=
  repChar '\n' ['\\', 'n']
    (repChar '%' ['\\', '%']
      (repChar ':' ['\\', ':']
        (repChar '\x27' ['\x27', '\\', '\x27', '\x27']
          (repChar '\\' ['\\', '\\'] l))))

/-- Pad a digit string on the left with zeros up to width `k`. -/
def padLeftZeros (s : String) (k : ℕ) : String :=
  if s.length < k then String.mk (List.replicate (k - s.length) '0') ++ s
  else s

/-- Smallest decimal exponent that clears the denominator, when one of at
most 20 digits exists. -/
def decExp (q : ℚ) : Option ℕ :=
  (List.range 21).find? (fun k => (q * (10 : ℚ) ^ k).den = 1)

/-- Rendering of a JS number in a template literal, for the integral and
finite-decimal values the render pipeline produces. -/
def qToString (q : ℚ) : String :=
  if q.den = 1 then toString q.num
  else
    match decExp q with
    | some k =>
      let n := (|q| * (10 : ℚ) ^ k).num.toNat
      let ip := n / 10 ^ k
      let fp := n % 10 ^ k
      let sign := if q < 0 then ("-") else ("")
      sign ++ toString ip ++ "." ++ padLeftZeros (toString fp) k
    | none => toString q

/-- JS `Math.round` on a finite number: floor of the value plus one half. -/
def jsRound (q : ℚ) : ℤ := Int.floor (q + 1 / 2)

/-- JS truthy-or for numbers: `o || d` (zero and absent both fall back). -/
def jsOr (o : Option ℚ) (d : ℚ) : ℚ :=
  match o with
  | some x => if x = 0 then d else x
  | none => d

/-- JS truthy-or for strings: `o || d` (empty and absent both fall back). -/
def jsStrOr (o : Option String) (d : String) : String :=
  match o with
  | some s => if s = "" then d else s
  | none => d

/-- NaN-propagating subtraction on JS numbers. -/
def optSub (a b : Option ℚ) : Option ℚ :=
  match a, b with
  | some x, some y => some (x - y)
  | _, _ => none

/-! ### Data model (timeline items as sent in the render request body) -/

/-- A text position argument: either a named position string or an explicit
`{x, y}` expression object. -/
inductive PosArg where
  | str (s : String)
  | obj (x y : Option String)
deriving DecidableEq

/-- A `type: "video"` timeline item. -/
structure VideoItem where
  filename : String
  cut : Option (ℚ × ℚ) := none
  volume : Option ℚ := none
  scaling : Option String := none
  duration : Option ℚ := none
deriving DecidableEq

/-- A `type: "image"` timeline item. -/
structure ImageItem where
  filename : String
  duration : Option ℚ := none
  scaling : Option String := none
deriving DecidableEq

/-- A `type: "audio"` timeline item. -/
structure AudioItem where
  filename : String
  startTime : Option ℚ := none
  cut : Option (ℚ × ℚ) := none
  duration : Option ℚ := none
  volume : Option ℚ := none
deriving DecidableEq

/-- A `type: "text"` timeline item.  `text` is kept at character level
because the SRT parser constructs it character by character. -/
structure TextItem where
  text : List Char
  style : Option String := none
  fontSize : Option ℚ := none
  position : Option PosArg := none
  startTime : Option ℚ := none
  duration : Option ℚ := none
deriving DecidableEq

/-- A timeline item, tagged by its `type` field. -/
inductive TimelineItem where
  | video (v : VideoItem)
  | image (im : ImageItem)
  | audio (a : AudioItem)
  | text (t : TextItem)
deriving DecidableEq

/-- External collaborators of the render pipeline: the upload file map and
the media prober.  `probe f = none` models an `ffprobe` error or a missing
`format.duration`; `audioStreamOf` already folds the probe-error fallback
(`resolve(false)`) into its answer. -/
structure RenderEnv where
  fileMap : String → Option String
  probe : String → Option ℚ
  audioStreamOf : String → Bool

/-- Duration obtained from the prober with the error fallback of 5 seconds
and the `metadata.format.duration || 5` falsy fallback. -/
def probedDuration (env : RenderEnv) (path : String) : ℚ :=
  match env.probe path with
  | none => 5
  | some d => if d = 0 then 5 else d

/-! ### textStyles.js: positions, style presets, SRT parsing, drawtext -/

/-- `TEXT_POSITIONS` from textStyles.js: named position to `(x, y)`
expression pair. -/
def TEXT_POSITIONS (p : String) : Option (String × String) :=
  if p = "top-left" then some ("50", "50")
  else if p = "top-center" then some ("(w-text_w)/2", "50")
  else if p = "top-right" then some ("w-text_w-50", "50")
  else if p = "middle-left" then some ("50", "(h-text_h)/2")
  else if p = "middle-center" then some ("(w-text_w)/2", "(h-text_h)/2")
  else if p = "middle-right" then some ("w-text_w-50", "(h-text_h)/2")
  else if p = "bottom-left" then some ("50", "h-text_h-50")
  else if p = "bottom-center" then some ("(w-text_w)/2", "h-text_h-50")
  else if p = "bottom-right" then some ("w-text_w-50", "h-text_h-50")
  else none

/-- A text style preset value.  Absent JS properties are `none`. -/
structure TextStyle where
  fontColor : Option String := none
  fontSize : Option ℚ := none
  borderColor : Option String := none
  borderWidth : Option ℚ := none
  boxColor : Option String := none
  boxBorderWidth : Option ℚ := none
  fontFile : String
deriving DecidableEq

/-- The shared mutable `TEXT_STYLES` module object, modelled as an
association list threaded through the pipeline. -/
def StylesMap : Type := List (String × TextStyle)

instance : DecidableEq StylesMap := by
  unfold StylesMap
  infer_instance

/-- Initial value of `TEXT_STYLES` (textStyles.js lines 58-101), with the
fonts directory as a parameter standing for `FONT_DIR`. -/
def TEXT_STYLES0 (fontDir : String) : StylesMap :=
  [ ("basic",
      { fontColor := some ("white"), fontSize := some 72,
        fontFile := fontDir ++ "/Roboto-Regular.ttf" }),
    ("outlined",
      { fontColor := some ("white"), fontSize := some 72,
        borderColor := some ("black"), borderWidth := some 3,
        fontFile := fontDir ++ "/Roboto-Bold.ttf" }),
    ("dark",
      { fontColor := some ("black"), fontSize := some 72,
        fontFile := fontDir ++ "/Roboto-Medium.ttf" }),
    ("tiktok",
      { fontColor := some ("white"), fontSize := some 72,
        borderColor := some ("black"), borderWidth := some 4,
        boxColor := some ("black@0.5"), boxBorderWidth := some 10,
        fontFile := fontDir ++ "/Roboto-Black.ttf" }),
    ("subtitle",
      { fontColor := some ("white"), fontSize := some 48,
        borderColor := some ("black"), borderWidth := some 2,
        fontFile := fontDir ++ "/Roboto-Medium.ttf" }) ]

/-- `srtTimeToSeconds` from textStyles.js.  The outer `Except` is the
`TypeError` thrown when the string has fewer than three colon-separated
parts (`seconds.split` on `undefined`); the inner `Option` is `NaN`.
Conversion is `HH*3600 + MM*60 + SS + mmm/1000`, exact in `ℚ`. -/
def srtTimeToSeconds (timeString : List Char) : Except Unit (Option ℚ) :=
  let parts := jsSplit ':' [] timeString
  match parts[2]? with
  | none => .error ()
  | some seconds =>
    let sub := jsSplit ',' [] seconds
    let h := jsParseIntOpt parts[0]?
    let m := jsParseIntOpt parts[1]?
    let s := jsParseIntOpt sub[0]?
    let ms := jsParseIntOpt sub[1]?
    .ok (do
      let h ← h
      let m ← m
      let s ← s
      let ms ← ms
      pure ((h : ℚ) * 3600 + (m : ℚ) * 60 + (s : ℚ) + (ms : ℚ) / 1000))

/-- `srtTimeToSeconds` applied to a possibly-undefined split component:
calling it on `undefined` throws (`undefined.split`). -/
def srtTimeOfOpt : Option (List Char) → Except Unit (Option ℚ)
  | none => .error ()
  | some s => srtTimeToSeconds s

/-- Block loop of `parseSRT`: blocks with fewer than 3 lines are skipped,
otherwise the second line is split on `" --> "` and a subtitle text item is
pushed with style `"subtitle"` and position `"bottom-center"`. -/
def parseBlocks : List (List Char) → Except Unit (List TimelineItem)
  | [] => .ok []
  | b :: bs =>
    let lines := jsSplit '\n' [] b
    match lines with
    | _ :: l1 :: l2 :: lrest => do
      let timecode := jsSplit ' ' ['-', '-', '>', ' '] l1
      let startTime ← srtTimeOfOpt timecode[0]?
      let endTime ← srtTimeOfOpt timecode[1]?
      let txt := List.intercalate ['\n'] (l2 :: lrest)
      let rest ← parseBlocks bs
      .ok (.text { text := txt, style := some ("subtitle"), startTime := startTime,
                   duration := optSub endTime startTime,
                   position := some (.str ("bottom-center")) } :: rest)
    | _ => parseBlocks bs

/-- Block construction of `parseSRT`: trim, then split on blank lines. -/
def parseSRTCore (normalized : List Char) : Except Unit (List TimelineItem) :=
  parseBlocks (jsSplit '\n' ['\n'] (jsTrim normalized))

/-- `parseSRT` from textStyles.js: rewrite literal backslash-n pairs into
newlines, then parse blank-line-delimited blocks. -/
def parseSRT (content : List Char) : Except Unit (List TimelineItem) :=
  parseSRTCore (normalizeNewlines content)

/-- `generateDrawTextFilter` from textStyles.js: render one drawtext filter
expression from text, style, position and timing. -/
def generateDrawTextFilter (text : String) (style : TextStyle) (position : PosArg)
    (startTime duration : ℚ) : String :=
  let fontColor := style.fontColor.getD ("white")
  let fontSize := style.fontSize.getD 72
  let borderWidth := style.borderWidth.getD 0
  let boxBorderWidth := style.boxBorderWidth.getD 0
  let xy :=
    match position with
    | .str s =>
      match TEXT_POSITIONS s with
      | some p => p
      | none => ((TEXT_POSITIONS ("middle-center")).getD ("", ""))
    | .obj xo yo => (xo.getD ("undefined"), yo.getD ("undefined"))
  let f := "drawtext=fontfile=\x27" ++ style.fontFile ++ "\x27:"
    ++ "fontsize=" ++ qToString fontSize ++ ":"
    ++ "fontcolor=" ++ fontColor ++ ":"
    ++ "x=" ++ xy.1 ++ ":y=" ++ xy.2 ++ ":"
    ++ "text=\x27" ++ text ++ "\x27"
  let f :=
    if 0 < startTime ∨ 0 < duration then
      f ++ ":enable=\x27between(t," ++ qToString startTime ++ ","
        ++ qToString (startTime + duration) ++ ")\x27"
    else f
  let f :=
    match style.borderColor with
    | some bc => if bc ≠ "" ∧ borderWidth ≠ 0 then
        f ++ ":bordercolor=" ++ bc ++ ":borderw=" ++ qToString borderWidth
      else f
    | none => f
  let f :=
    match style.boxColor with
    | some bxc =>
      if bxc ≠ "" then
        let f := f ++ ":box=1:boxcolor=" ++ bxc
        if boxBorderWidth ≠ 0 then f ++ ":boxborderw=" ++ qToString boxBorderWidth
        else f
      else f
    | none => f
  f

/-! ### render.js: scaling modes and filter templates -/

/-- Worker for `replaceSeq`; the fuel argument only forces structural
recursion and is never exhausted from `replaceSeq`. -/
def replaceSeqAux (p0 : Char) (ps r : List Char) : ℕ → List Char → List Char
  | _, [] => []
  | 0, l => l
  | fuel + 1, a :: rest =>
    if (p0 :: ps).isPrefixOf (a :: rest) then
      r ++ replaceSeqAux p0 ps r fuel (rest.drop ps.length)
    else
      a :: replaceSeqAux p0 ps r fuel rest

/-- Literal non-overlapping pattern replacement, applied left to right
(one JS `.replace(/pattern/g, r)` step for a non-empty literal pattern
`p0 :: ps`). -/
def replaceSeq (p0 : Char) (ps r : List Char) (l : List Char) : List Char :=
  replaceSeqAux p0 ps r l.length l

/-- `SCALING_MODES` from render.js: mode name to filter template with
`\x7bwidth\x7d` and `\x7bheight\x7d` placeholders. -/
def SCALING_MODES (mode : String) : Option String :=
  if mode = "fill" then
    some ("scale=\x7bwidth\x7d:\x7bheight\x7d")
  else if mode = "contain" then
    some ("scale=\x27if(gte(iw/ih,\x7bwidth\x7d/\x7bheight\x7d),min(\x7bwidth\x7d,iw),-1)\x27:\x27if(gte(iw/ih,\x7bwidth\x7d/\x7bheight\x7d),-1,min(\x7bheight\x7d,ih))\x27,pad=\x7bwidth\x7d:\x7bheight\x7d:((\x7bwidth\x7d-iw)/2):((\x7bheight\x7d-ih)/2)")
  else if mode = "cover" then
    some ("scale=\x27if(gte(iw/ih,\x7bwidth\x7d/\x7bheight\x7d),\x7bheight\x7d*(iw/ih),\x7bwidth\x7d)\x27:\x27if(gte(iw/ih,\x7bwidth\x7d/\x7bheight\x7d),\x7bheight\x7d,\x7bwidth\x7d/(iw/ih))\x27,crop=\x7bwidth\x7d:\x7bheight\x7d")
  else if mode = "scale-down" then
    some ("scale=\x27if(gte(iw/ih,\x7bwidth\x7d/\x7bheight\x7d),min(iw,\x7bwidth\x7d),-1)\x27:\x27if(gte(iw/ih,\x7bwidth\x7d/\x7bheight\x7d),-1,min(ih,\x7bheight\x7d))\x27,pad=\x7bwidth\x7d:\x7bheight\x7d:((\x7bwidth\x7d-iw)/2):((\x7bheight\x7d-ih)/2)")
  else if mode = "none" then
    some ("scale=\x27if(gt(iw,\x7bwidth\x7d),\x7bwidth\x7d,-1)\x27:\x27if(gt(ih,\x7bheight\x7d),\x7bheight\x7d,-1)\x27,pad=\x7bwidth\x7d:\x7bheight\x7d:((\x7bwidth\x7d-iw)/2):((\x7bheight\x7d-ih)/2)")
  else none

/-- `getScalingFilter` from render.js: look the mode up (falling back to
`"cover"`), then substitute the width and height placeholders. -/
def getScalingFilter (width height : ℕ) (mode : String) : String :=
  let template := (SCALING_MODES mode).getD (((SCALING_MODES ("cover")).getD ("")))
  String.mk
    (replaceSeq '\x7b' (("height\x7d").toList) ((toString height).toList)
      (replaceSeq '\x7b' (("width\x7d").toList) ((toString width).toList)
        template.toList))

/-! ### render.js: timeline resolution (first pass) -/

/-- Video segment duration: cut end (or probed duration) minus cut start
(or zero). -/
def videoSegmentDuration (env : RenderEnv) (path : String) (v : VideoItem) : ℚ :=
  let dur := probedDuration env path
  ((v.cut.map (fun c => c.2)).getD dur) - ((v.cut.map (fun c => c.1)).getD 0)

/-- Video cut start (`item.cut ? item.cut[0] : 0`). -/
def videoCutStart (v : VideoItem) : ℚ :=
  (v.cut.map (fun c => c.1)).getD 0

/-- Audio segment duration (`item.duration ? item.duration :
endTime - startTime`, with `endTime` the cut end or probed duration). -/
def audioSegmentDuration (env : RenderEnv) (path : String) (a : AudioItem) : ℚ :=
  let metaDur := probedDuration env path
  let startTime := (a.cut.map (fun c => c.1)).getD 0
  let endTime := (a.cut.map (fun c => c.2)).getD metaDur
  match a.duration with
  | some d => if d = 0 then endTime - startTime else d
  | none => endTime - startTime

/-- Audio cut start (`item.cut ? item.cut[0] : 0`). -/
def audioCutStart (a : AudioItem) : ℚ :=
  (a.cut.map (fun c => c.1)).getD 0

/-- State of the first (duration/cursor) pass over the timeline. -/
structure ResolveState where
  totalDuration : ℚ
  cursor : ℚ
deriving DecidableEq

/-- One step of the first pass (render.js lines 793-872).  Returns the new
state and the `timelineStart` annotation stored on the item (`none` for
text items, which this pass ignores).  Video and image items advance the
cursor; audio items do not. -/
def resolveStep (env : RenderEnv) (s : ResolveState) :
    TimelineItem → Except String (ResolveState × Option ℚ)
  | .video v =>
    match env.fileMap v.filename with
    | none => .error ("File not found for " ++ v.filename)
    | some path =>
      let seg := videoSegmentDuration env path v
      .ok ({ totalDuration := s.totalDuration + seg, cursor := s.cursor + seg },
           some s.cursor)
  | .image im =>
    let seg := jsOr im.duration 5
    .ok ({ totalDuration := s.totalDuration + seg, cursor := s.cursor + seg },
         some s.cursor)
  | .audio a =>
    match env.fileMap a.filename with
    | none => .error ("File not found for " ++ a.filename)
    | some path =>
      let seg := audioSegmentDuration env path a
      if seg ≤ 0 then
        .error ("Invalid cut points for " ++ a.filename ++ ": duration must be positive")
      else
        let overlayStart := a.startTime.getD s.cursor
        .ok ({ totalDuration := max s.totalDuration (overlayStart + seg),
               cursor := s.cursor },
             some overlayStart)
  | .text _ => .ok (s, none)

/-- The whole first pass, from `totalDuration = 0`, `timelineCursor = 0`. -/
def resolvePass (env : RenderEnv) (items : List TimelineItem) :
    Except String ResolveState :=
  items.foldlM (fun s it => (resolveStep env s it).map (fun r => r.1))
    { totalDuration := 0, cursor := 0 }

/-! ### render.js: input registration and filter statements (second pass) -/

/-- `delayMs` for an audio overlay: `(item.startTime || 0) * 1000`. -/
def audioDelayMs (a : AudioItem) : ℚ :=
  jsOr a.startTime 0 * 1000

/-- `delayFilter` for an audio overlay: an `adelay` when the delay is
positive, else the identity filter `anull`. -/
def audioDelayFilter (a : AudioItem) : String :=
  if 0 < audioDelayMs a then
    "adelay=" ++ qToString (audioDelayMs a) ++ "|" ++ qToString (audioDelayMs a)
  else "anull"

/-- `volumeFilter` for an audio overlay: a volume scale exactly when the
(defaulted) volume differs from 100. -/
def audioVolumeFilter (a : AudioItem) : String :=
  if a.volume.getD 100 ≠ 100 then
    ",volume=" ++ qToString (a.volume.getD 100 / 100)
  else ""

/-- State of the second pass: registered inputs (path and input options),
filter statements in emission order, the three label lists, the monotonic
input index, the audio flag, the running `totalDuration` (already holding
the first pass result) and the `timelineStart` values written onto audio
items. -/
structure BuildState where
  inputs : List (String × List String)
  fc : List String
  videoLabels : List String
  audioLabels : List String
  overlayAudioLabels : List String
  inputIndex : ℕ
  hasAudio : Bool
  totalDuration : ℚ
  audioStarts : List ℚ
deriving DecidableEq

/-- Empty second-pass state, seeded with the first pass `totalDuration`. -/
def initBuildState (total : ℚ) : BuildState :=
  { inputs := [], fc := [], videoLabels := [], audioLabels := [],
    overlayAudioLabels := [], inputIndex := 0, hasAudio := false,
    totalDuration := total, audioStarts := [] }

/-- One step of the second pass (render.js lines 886-1036): register the
item input and emit its per-item filter statements.  `cursorFinal` is the
value of `timelineCursor` left behind by the first pass. -/
def buildStep (env : RenderEnv) (scaling : String) (width height : ℕ)
    (cursorFinal : ℚ) (s : BuildState) :
    TimelineItem → Except String BuildState
  | .video v =>
    match env.fileMap v.filename with
    | none => .error ("File not found for " ++ v.filename)
    | some path =>
      let seg := videoSegmentDuration env path v
      if seg ≤ 0 then
        .error ("Invalid cut points for " ++ v.filename ++ ": duration must be positive")
      else
        let sf := getScalingFilter width height (jsStrOr v.scaling scaling)
        let i := s.inputIndex
        let s1 := { s with
          inputs := s.inputs ++
            [(path, ["-accurate_seek", "-ss", qToString (videoCutStart v),
                     "-t", qToString seg])],
          fc := s.fc ++ ["[" ++ toString i ++ ":v]" ++ sf ++ ",setsar=1[v"
                          ++ toString i ++ "]"],
          videoLabels := s.videoLabels ++ ["[v" ++ toString i ++ "]"] }
        let volume := v.volume.getD 100
        let s2 :=
          if 0 < volume ∧ env.audioStreamOf path then
            { s1 with
              hasAudio := true,
              fc := s1.fc ++ ["[" ++ toString i ++ ":a]volume="
                               ++ qToString (volume / 100) ++ "[a" ++ toString i ++ "]"],
              audioLabels := s1.audioLabels ++ ["[a" ++ toString i ++ "]"] }
          else s1
        .ok { s2 with inputIndex := i + 1 }
  | .image im =>
    match env.fileMap im.filename with
    | none => .error ("File not found for " ++ im.filename)
    | some path =>
      let sf := getScalingFilter width height (jsStrOr im.scaling scaling)
      let i := s.inputIndex
      .ok { s with
        inputs := s.inputs ++
          [(path, ["-framerate", "30", "-loop", "1",
                   "-t", qToString (jsOr im.duration 5)])],
        fc := s.fc ++ ["[" ++ toString i ++ ":v]" ++ sf ++ ",setsar=1[v"
                        ++ toString i ++ "]"],
        videoLabels := s.videoLabels ++ ["[v" ++ toString i ++ "]"],
        inputIndex := i + 1 }
  | .audio a =>
    match env.fileMap a.filename with
    | none => .error ("File not found for " ++ a.filename)
    | some path =>
      let seg := audioSegmentDuration env path a
      let overlayStart := a.startTime.getD cursorFinal
      let i := s.inputIndex
      let delayedLabel := "[oa" ++ toString s.overlayAudioLabels.length ++ "]"
      .ok { s with
        totalDuration := max s.totalDuration (overlayStart + seg),
        inputs := s.inputs ++
          [(path, ["-accurate_seek", "-ss", qToString (audioCutStart a),
                   "-t", qToString seg])],
        fc := s.fc ++ ["[" ++ toString i ++ ":a]" ++ audioDelayFilter a
                        ++ audioVolumeFilter a ++ delayedLabel],
        hasAudio := true,
        overlayAudioLabels := s.overlayAudioLabels ++ [delayedLabel],
        audioStarts := s.audioStarts ++ [overlayStart],
        inputIndex := i + 1 }
  | .text _ => .ok s

/-! ### render.js: video reduction, text compositing, audio reduction -/

/-- Video reduction (render.js lines 1038-1047): the statements appended
after the per-item loop and the resulting `finalVideoLabel`. -/
def videoReduce (videoLabels : List String) : List String × String :=
  if 1 < videoLabels.length then
    ([String.join videoLabels ++ "concat=n=" ++ toString videoLabels.length
       ++ ":v=1:a=0[concatv]"], "[concatv]")
  else
    match videoLabels with
    | [l] => ([l ++ "copy[concatv]"], "[concatv]")
    | _ => ([], "")

/-- Render the style argument of the invalid-style error message
(`undefined` for an absent property). -/
def showOptStr : Option String → String
  | some s => s
  | none => "undefined"

/-- Key of the preset object that `TEXT_STYLES[textItem.style]` (or the
`basic` fallback for a falsy style) denotes. -/
def styleKey (o : Option String) : String :=
  match o with
  | some nm => if nm = "" then "basic" else nm
  | none => "basic"

/-- In-place mutation `TEXT_STYLES[key].fontSize = v`, modelled as a map
update at the shared preset entry. -/
def setFontSize (m : StylesMap) (key : String) (v : ℚ) : StylesMap :=
  m.map (fun kv => if kv.1 = key then (kv.1, { kv.2 with fontSize := some v }) else kv)

/-- Text compositing chain (render.js lines 1049-1079): one statement per
text item, threaded through the current video label and the shared mutable
styles map.  `k` numbers the `[txt..]` labels (items are reference-distinct
in JS, so `textItems.indexOf(textItem)` is the position). -/
def applyTextItems (styles : StylesMap) (fvl : String) (k : ℕ) :
    List TextItem → Except String (StylesMap × List String × String)
  | [] => .ok (styles, [], fvl)
  | t :: ts =>
    let key := styleKey t.style
    match styles.lookup key with
    | none => .error ("Invalid text style: " ++ showOptStr t.style)
    | some style =>
      let upd :=
        match t.fontSize with
        | some v => if v ≠ 0 then (setFontSize styles key v, { style with fontSize := some v })
                    else (styles, style)
        | none => (styles, style)
      let pos :=
        match t.position with
        | none => PosArg.str ("middle-center")
        | some (.str nm) => if nm = "" then .str ("middle-center") else .str nm
        | some p => p
      let tf := generateDrawTextFilter (String.mk (escapeText t.text)) upd.2 pos
        (jsOr t.startTime 0) (jsOr t.duration 5)
      let lbl := "[txt" ++ toString k ++ "]"
      match applyTextItems upd.1 lbl (k + 1) ts with
      | .error e => .error e
      | .ok (st, stmts, f) => .ok (st, (fvl ++ tf ++ lbl) :: stmts, f)

/-- Audio reduction (render.js lines 1084-1107): concatenate sequential
audio labels when there are several, then resample or mix with the overlay
audio labels. -/
def audioReduce (hasAudio : Bool) (audioLabels overlayAudioLabels : List String) :
    List String :=
  if hasAudio then
    let pre :=
      if audioLabels.length = 1 then ([], audioLabels)
      else if 1 < audioLabels.length then
        ([String.join audioLabels ++ "concat=n=" ++ toString audioLabels.length
           ++ ":v=0:a=1[videocona]"], ["[videocona]"])
      else ([], [])
    let mixInputs := pre.2 ++ overlayAudioLabels
    pre.1 ++
      (match mixInputs with
       | [m] => [m ++ "aresample=async=1[outa]"]
       | _ => [String.join mixInputs ++ "amix=inputs=" ++ toString mixInputs.length
                ++ ":duration=longest:dropout_transition=2[outa]"])
  else []

/-- Result of building one render job: registered inputs, the full ordered
filter program, the label lists, the audio flag, the final
`totalDuration` and `timelineCursor`, the audio `timelineStart`
annotations, and the styles map after any in-place customization. -/
structure BuildResult where
  inputs : List (String × List String)
  fc : List String
  videoLabels : List String
  audioLabels : List String
  overlayAudioLabels : List String
  hasAudio : Bool
  totalDuration : ℚ
  timelineCursor : ℚ
  audioStarts : List ℚ
  styles : StylesMap
deriving DecidableEq

/-- Subtitle acquisition of `renderJob` (render.js lines 776-780): when
`subtitles` is truthy, parse it — a parse-time throw aborts the job — else
contribute no items. -/
def subtitleStage (subtitles : Option (List Char)) :
    Except String (List TimelineItem) :=
  match subtitles with
  | some sub =>
    if sub = [] then .ok []
    else
      match parseSRT sub with
      | .error _ => .error ("TypeError in parseSRT")
      | .ok its => .ok its
  | none => .ok []

/-- `renderJob` up to command assembly (render.js lines 754-1107): reject
an empty timeline, append parsed subtitles, run the duration pass, run the
input/statement pass, then the video, text and audio reduction stages.
`width` and `height` are the parsed resolution. -/
def renderJobBuild (env : RenderEnv) (styles : StylesMap) (scaling : String)
    (width height : ℕ) (timeline : List TimelineItem)
    (subtitles : Option (List Char)) : Except String BuildResult :=
  if timeline = [] then .error ("Timeline is empty")
  else do
    let subtitleItems ← subtitleStage subtitles
    let fullTimeline := timeline ++ subtitleItems
    let rs ← resolvePass env fullTimeline
    let bs ← fullTimeline.foldlM (buildStep env scaling width height rs.cursor)
      (initBuildState rs.totalDuration)
    let vr := videoReduce bs.videoLabels
    let textItems := fullTimeline.filterMap
      (fun it => match it with | .text t => some t | _ => none)
    let tr ← applyTextItems styles vr.2 0 textItems
    let fc := bs.fc ++ vr.1 ++ tr.2.1 ++ [tr.2.2 ++ "copy[outv]"]
      ++ audioReduce bs.hasAudio bs.audioLabels bs.overlayAudioLabels
    .ok { inputs := bs.inputs, fc := fc, videoLabels := bs.videoLabels,
          audioLabels := bs.audioLabels,
          overlayAudioLabels := bs.overlayAudioLabels, hasAudio := bs.hasAudio,
          totalDuration := bs.totalDuration, timelineCursor := rs.cursor,
          audioStarts := bs.audioStarts, styles := tr.1 }

/-- The legacy video concatenation statement (first render.js revision,
lines 311-325): video labels are tagged `:d=duration`, labels of other
items are passed through untagged. -/
def legacyVideoConcatStmt (fullTimeline : List TimelineItem)
    (videoLabels : List String) : String :=
  String.join (videoLabels.mapIdx (fun i label =>
    match fullTimeline[i]? with
    | some (.video v) =>
      label ++ ":d=" ++ qToString
        (match v.cut with
         | some c => c.2 - c.1
         | none => jsOr v.duration 5)
    | _ => label))
  ++ "concat=n=" ++ toString videoLabels.length ++ ":v=1:a=0[outv]"

/-! ### Result extractors (for stating concrete facts about builds) -/

/-- Whether a build completed without throwing. -/
def buildOk : Except String BuildResult → Bool
  | .ok _ => true
  | .error _ => false

/-- Filter program of a build (empty on a throw). -/
def buildFC : Except String BuildResult → List String
  | .ok b => b.fc
  | .error _ => []

/-- Registered inputs of a build (empty on a throw). -/
def buildInputs : Except String BuildResult → List (String × List String)
  | .ok b => b.inputs
  | .error _ => []

/-- Final `totalDuration` of a build (zero on a throw). -/
def buildTotal : Except String BuildResult → ℚ
  | .ok b => b.totalDuration
  | .error _ => 0

/-- Audio `timelineStart` annotations of a build (empty on a throw). -/
def buildStarts : Except String BuildResult → List ℚ
  | .ok b => b.audioStarts
  | .error _ => []

/-- Styles map left behind by a build (empty on a throw). -/
def buildStyles : Except String BuildResult → StylesMap
  | .ok b => b.styles
  | .error _ => []

/-- Font size currently stored in a styles map under a preset name. -/
def lookupFontSize (m : StylesMap) (key : String) : Option ℚ :=
  (m.lookup key).bind (fun st => st.fontSize)

/-! ### render.js: progress translation (lines 1154-1191) -/

/-- Percent computed from one elapsed-time marker: `min(round(t / total *
100), 100)`.  With `totalDuration = 0`, JS produces `Infinity` (clamped to
100) for a positive marker and `NaN` (never emitted, modelled `none`) for a
zero marker. -/
def progressPercent (totalDuration t : ℚ) : Option ℤ :=
  if totalDuration = 0 then
    if 0 < t then some 100 else none
  else some (min (jsRound (t / totalDuration * 100)) 100)

/-- Emission loop of the progress handler: an update is pushed only when
the computed percent strictly exceeds `lastProgress`. -/
def progressAux (td : ℚ) (last : ℤ) : List ℚ → List ℤ
  | [] => []
  | t :: ts =>
    match progressPercent td t with
    | none => progressAux td last ts
    | some p => if last < p then p :: progressAux td p ts else progressAux td last ts

/-- All progress values emitted for a stream of elapsed-time markers,
starting from `lastProgress = 0`. -/
def progressEmitted (td : ℚ) (ts : List ℚ) : List ℤ :=
  progressAux td 0 ts

/-! ### Concrete scenarios used by the closed theorems -/

/-- Environment with a 10-second video `intro.mp4` (no audio stream) and a
still image `slide.png`. -/
def env1 : RenderEnv :=
  { fileMap := fun f =>
      if f = "intro.mp4" then some ("/uploads/intro.mp4")
      else if f = "slide.png" then some ("/uploads/slide.png")
      else none,
    probe := fun p => if p = "/uploads/intro.mp4" then some 10 else none,
    audioStreamOf := fun _ => false }

/-- The end-to-end timeline of the concatenation claim: a video cut to
`[0, 5]` followed by a 3-second image. -/
def c1Timeline : List TimelineItem :=
  [ .video { filename := "intro.mp4", cut := some (0, 5) },
    .image { filename := "slide.png", duration := some 3 } ]

/-- Build of the concatenation scenario at 1280x720. -/
def c1Build : Except String BuildResult :=
  renderJobBuild env1 (TEXT_STYLES0 ("fonts")) ("cover") 1280 720 c1Timeline none

/-- The video concatenation statement the current builder emits for two
video labels. -/
def c1ConcatStmt : String := "[v0][v1]concat=n=2:v=1:a=0[concatv]"

/-- Environment with a still image and a 3-second audio file. -/
def env2 : RenderEnv :=
  { fileMap := fun f =>
      if f = "slide.png" then some ("/uploads/slide.png")
      else if f = "song.mp3" then some ("/uploads/song.mp3")
      else none,
    probe := fun p => if p = "/uploads/song.mp3" then some 3 else none,
    audioStreamOf := fun _ => false }

/-- Timeline whose audio overlay has no explicit `startTime`: its
absolute start is the sequential cursor (5, after the image). -/
def c2Timeline : List TimelineItem :=
  [ .image { filename := "slide.png", duration := some 5 },
    .audio { filename := "song.mp3" } ]

/-- Build of the implicit-start audio scenario. -/
def c2Build : Except String BuildResult :=
  renderJobBuild env2 (TEXT_STYLES0 ("fonts")) ("cover") 1280 720 c2Timeline none

/-- Single-video timeline for the pass-through claim. -/
def c4Timeline : List TimelineItem :=
  [ .video { filename := "intro.mp4", cut := some (0, 5) } ]

/-- Build of the single-video scenario. -/
def c4Build : Except String BuildResult :=
  renderJobBuild env1 (TEXT_STYLES0 ("fonts")) ("cover") 1280 720 c4Timeline none

/-- Audio-only timeline: yields zero video labels. -/
def c5Timeline : List TimelineItem :=
  [ .audio { filename := "song.mp3", startTime := some 2 } ]

/-- Build of the audio-only scenario. -/
def c5Build : Except String BuildResult :=
  renderJobBuild env2 (TEXT_STYLES0 ("fonts")) ("cover") 1280 720 c5Timeline none

/-- The SRT input of the subtitle parsing claim. -/
def c7Input : String :=
  "1\n00:00:01,000 --> 00:00:04,000\nHi\n\n2\n00:00:04,000 --> 00:00:08,000\nBye"

/-- Environment with no resolvable files at all (enough for text-only
timelines, which perform no lookup). -/
def env8 : RenderEnv :=
  { fileMap := fun _ => none, probe := fun _ => none,
    audioStreamOf := fun _ => false }

/-- A one-item text timeline over the `basic` style, with an optional font
size override. -/
def c8Timeline (fs : Option ℚ) : List TimelineItem :=
  [ .text { text := ("Hello").toList, style := some ("basic"), fontSize := fs } ]

/-- First build: requests the `basic` style with `fontSize: 64`. -/
def c8Build1 : Except String BuildResult :=
  renderJobBuild env8 (TEXT_STYLES0 ("fonts")) ("cover") 1280 720
    (c8Timeline (some 64)) none

/-- Second build, on the styles map the first build left behind: same
style, no override. -/
def c8Build2 : Except String BuildResult :=
  renderJobBuild env8 (buildStyles c8Build1) ("cover") 1280 720
    (c8Timeline none) none

/-- Witness audio item for the audio-statement theorem: explicit
`startTime` 2.5 seconds, default volume. -/
def c2wAudio : AudioItem := { filename := "song.mp3", startTime := some (5 / 2) }

/-- Audio item carrying a present-but-zero duration override together with
a cut range. -/
def c3Audio : AudioItem := { filename := "song.mp3", cut := some (1, 4), duration := some 0 }

/-- Witness audio item for the resolution theorem: no explicit fields, so
the probed duration 3 and the cursor apply. -/
def c3wAudio : AudioItem := { filename := "song.mp3" }

/-- The cover-mode scaling statement of the single-video build. -/
def c4ScaleStmt : String :=
  "[0:v]scale=\x27if(gte(iw/ih,1280/720),720*(iw/ih),1280)\x27:\x27if(gte(iw/ih,1280/720),720,1280/(iw/ih))\x27,crop=1280:720,setsar=1[v0]"

/-- Control build: the override-free request against the pristine styles. -/
def c8Build0 : Except String BuildResult :=
  renderJobBuild env8 (TEXT_STYLES0 ("fonts")) ("cover") 1280 720
    (c8Timeline none) none

end FFmux

deriving instance DecidableEq for Except

namespace FFmux

/-! ### Helper lemmas -/

/-- No literal backslash-n pair exists in a backslash-free text, so
normalization is the identity on it. -/
theorem normalizeNewlines_id (t : List Char) (h : '\\' ∉ t) :
    normalizeNewlines t = t := by
  induction t with
  | nil => rfl
  | cons c1 tail ih =>
    have hc1 : c1 ≠ '\\' := fun e => h (e ▸ List.mem_cons_self c1 tail)
    have htail : '\\' ∉ tail := fun m => h (List.mem_cons_of_mem _ m)
    cases tail with
    | nil => rfl
    | cons c2 rest =>
      show normalizeNewlines (c1 :: c2 :: rest) = c1 :: c2 :: rest
      rw [normalizeNewlines]
      rw [if_neg (fun hc => hc1 hc.1)]
      rw [ih htail]

/-- Rewriting real newlines to literal backslash-n pairs and normalizing
recovers the original backslash-free text. -/
theorem normalizeNewlines_encode (t : List Char) (h : '\\' ∉ t) :
    normalizeNewlines (encodeNewlines t) = t := by
  induction t with
  | nil => rfl
  | cons c tail ih =>
    have hc : c ≠ '\\' := fun e => h (e ▸ List.mem_cons_self c tail)
    have htail : '\\' ∉ tail := fun m => h (List.mem_cons_of_mem _ m)
    by_cases hnl : c = '\n'
    · subst hnl
      show normalizeNewlines (encodeNewlines ('\n' :: tail)) = '\n' :: tail
      rw [encodeNewlines, if_pos rfl, normalizeNewlines, if_pos ⟨rfl, rfl⟩, ih htail]
    · show normalizeNewlines (encodeNewlines (c :: tail)) = c :: tail
      rw [encodeNewlines, if_neg hnl]
      cases he : encodeNewlines tail with
      | nil =>
        have h0 : normalizeNewlines (encodeNewlines tail) = tail := ih htail
        rw [he] at h0
        have h1 : tail = [] := by simpa [normalizeNewlines] using h0.symm
        subst h1
        rfl
      | cons d ds =>
        rw [normalizeNewlines, if_neg (fun hb => hc hb.1), ← he, ih htail]

/-- Every percent the progress handler computes is at most 100. -/
theorem progressPercent_le (td t : ℚ) (p : ℤ) (h : progressPercent td t = some p) :
    p ≤ 100 := by
  unfold progressPercent at h
  by_cases h0 : td = 0
  · rw [if_pos h0] at h
    by_cases h1 : 0 < t
    · rw [if_pos h1] at h
      injection h with h
      omega
    · rw [if_neg h1] at h
      exact absurd h (by simp)
  · rw [if_neg h0] at h
    injection h with h
    rw [← h]
    exact min_le_right _ _

/-- Every value the emission loop produces strictly exceeds the incoming
`lastProgress` and is at most 100. -/
theorem progressAux_mem (td : ℚ) :
    ∀ (ts : List ℚ) (last x : ℤ), x ∈ progressAux td last ts → last < x ∧ x ≤ 100 := by
  intro ts
  induction ts with
  | nil =>
    intro last x hx
    simp [progressAux] at hx
  | cons t ts ih =>
    intro last x hx
    unfold progressAux at hx
    split at hx
    · exact ih last x hx
    · rename_i p hp
      split at hx
      · rename_i hl
        rcases List.mem_cons.mp hx with rfl | hx2
        · exact ⟨hl, progressPercent_le td t x hp⟩
        · obtain ⟨h1, h2⟩ := ih p x hx2
          exact ⟨lt_trans hl h1, h2⟩
      · exact ih last x hx

/-- The emission loop yields a strictly increasing list from any starting
`lastProgress`. -/
theorem progressAux_chain (td : ℚ) :
    ∀ (ts : List ℚ) (last : ℤ),
      List.Chain' (fun a b => a < b) (progressAux td last ts) := by
  intro ts
  induction ts with
  | nil =>
    intro last
    simp [progressAux]
  | cons t ts ih =>
    intro last
    unfold progressAux
    split
    · exact ih last
    · rename_i p hp
      split
      · rename_i hl
        refine List.chain'_cons'.mpr ⟨?_, ih p⟩
        intro y hy
        exact (progressAux_mem td ts p y (List.mem_of_mem_head? hy)).1
      · exact ih last

/-! ### Claim theorems -/

/-- C6: for every job (any fixed `totalDuration` and any stream of
elapsed-time markers), the emitted progress sequence is strictly
increasing — an update is emitted only when the newly computed percent
strictly exceeds the last emitted value — and every emitted value lies
within `[0, 100]`; in particular the sequence never regresses. -/
theorem c6_progress_monotone (td : ℚ) (ts : List ℚ) :
    List.Chain' (fun a b => a < b) (progressEmitted td ts)
    ∧ ∀ x ∈ progressEmitted td ts, 0 ≤ x ∧ x ≤ 100 := by
  constructor
  · exact progressAux_chain td ts 0
  · intro x hx
    obtain ⟨h1, h2⟩ := progressAux_mem td ts 0 x hx
    exact ⟨le_of_lt h1, h2⟩

/-- C7: the two-block SRT text parses to exactly two text overlay items —
`"Hi"` starting at 1.0 for 3.0 seconds and `"Bye"` starting at 4.0 for 4.0
seconds, both styled `"subtitle"` at `"bottom-center"` — and timestamp
conversion `HH*3600 + MM*60 + SS + mmm/1000` is exact (no rounding), as the
fractional check on `00:00:01,500` shows. -/
theorem c7_parse_srt :
    parseSRT c7Input.toList
      = .ok [ .text { text := ("Hi").toList, style := some ("subtitle"),
                      startTime := some 1, duration := some 3,
                      position := some (.str ("bottom-center")) },
              .text { text := ("Bye").toList, style := some ("subtitle"),
                      startTime := some 4, duration := some 4,
                      position := some (.str ("bottom-center")) } ]
    ∧ srtTimeToSeconds ("00:00:01,500").toList = .ok (some (3 / 2)) := by
  decide

/-- C8: a render request whose text overlay carries `fontSize: 64` on the
shared `basic` preset overwrites the preset's font size in place, so a
later build of the same style with no override renders `fontsize=64`,
while against the pristine presets it would have rendered `fontsize=72`. -/
theorem c8_shared_style_mutation :
    lookupFontSize (TEXT_STYLES0 ("fonts")) ("basic") = some 72
    ∧ lookupFontSize (buildStyles c8Build1) ("basic") = some 64
    ∧ (buildFC c8Build2).any (fun st => strContains ("fontsize=64") st) = true
    ∧ (buildFC c8Build2).any (fun st => strContains ("fontsize=72") st) = false
    ∧ (buildFC c8Build0).any (fun st => strContains ("fontsize=72") st) = true := by
  decide

/-- C9: `getScalingFilter` is a pure total Lean function of the mode and
target size (hence deterministic: identical inputs give identical
expression strings by definition), and every mode outside the five
recognized modes yields exactly the expression produced for `"cover"`. -/
theorem c9_scaling_fallback (mode : String) (width height : ℕ)
    (h : mode ∉ ["fill", "contain", "cover", "scale-down", "none"]) :
    getScalingFilter width height mode = getScalingFilter width height ("cover") := by
  simp only [List.mem_cons, List.mem_singleton, not_or] at h
  obtain ⟨h1, h2, h3, h4, h5⟩ := h
  simp [getScalingFilter, SCALING_MODES, h1, h2, h3, h4, h5]

/-- Witness for C9 at the unrecognized mode `"weird"` and size 1280x720. -/
theorem c9_scaling_fallback_witness :
    ("weird") ∉ ["fill", "contain", "cover", "scale-down", "none"]
    ∧ getScalingFilter 1280 720 ("weird") = getScalingFilter 1280 720 ("cover") :=
  ⟨by decide, c9_scaling_fallback ("weird") 1280 720 (by decide)⟩

/-- C10: for a raw subtitle text with no backslash characters, `parseSRT`
returns the same result whether its line breaks are real newline characters
or literal backslash-n pairs, because normalization rewrites the latter
into the former before any splitting. -/
theorem c10_literal_newlines (t : List Char) (h : '\\' ∉ t) :
    parseSRT (encodeNewlines t) = parseSRT t := by
  unfold parseSRT
  rw [normalizeNewlines_encode t h, normalizeNewlines_id t h]

/-- Witness for C10 on a small single-block subtitle text. -/
theorem c10_literal_newlines_witness :
    '\\' ∉ ("1\n00:00:01,000 --> 00:00:02,000\nX").toList
    ∧ parseSRT (encodeNewlines (("1\n00:00:01,000 --> 00:00:02,000\nX").toList))
        = parseSRT (("1\n00:00:01,000 --> 00:00:02,000\nX").toList) :=
  ⟨by decide, c10_literal_newlines (("1\n00:00:01,000 --> 00:00:02,000\nX").toList) (by decide)⟩

set_option maxRecDepth 40000 in
/-- C1 counterexample: in the end-to-end scenario the unique concatenation
statement is `[v0][v1]concat=n=2:v=1:a=0[concatv]`, which carries no
`:d=` duration tag at all — in particular neither `:d=5` nor `:d=3` — so
the claim that each label is tagged with its resolved duration is false;
even the legacy tagged form tags only the video label, not the image
label. -/
theorem c1_concat_counterexample :
    (buildFC c1Build).filter (fun st => strContains ("concat=n=") st) = [c1ConcatStmt]
    ∧ strContains (":d=") c1ConcatStmt = false
    ∧ legacyVideoConcatStmt c1Timeline ["[v0]", "[v1]"]
        = "[v0]:d=5[v1]concat=n=2:v=1:a=0[outv]"
    ∧ strContains (":d=3") (legacyVideoConcatStmt c1Timeline ["[v0]", "[v1]"]) = false := by
  decide

set_option maxRecDepth 40000 in
/-- C1 (amended): for the timeline `[VideoClip cut=[0,5], ImageClip
duration=3]` at 1280x720, the builder registers exactly two video inputs
and emits exactly one video concatenation statement, which references both
video labels but carries no per-label duration tags, and the resolver
computes `totalDuration = 8`. -/
theorem c1_concat_build :
    (buildInputs c1Build).length = 2
    ∧ (buildFC c1Build).filter (fun st => strContains ("concat=n=") st) = [c1ConcatStmt]
    ∧ strContains ("[v0]") c1ConcatStmt = true
    ∧ strContains ("[v1]") c1ConcatStmt = true
    ∧ buildTotal c1Build = 8 := by
  decide

set_option maxRecDepth 40000 in
/-- C2 counterexample: for `[ImageClip duration=5, AudioClip]` the audio
clip's absolute start is the cursor value 5 (recorded as its
`timelineStart`), yet the emitted audio statement is `[1:a]anull[oa0]`:
the identity filter, with no `adelay=5000` — the delay comes from
`startTime` alone, not from `absoluteStart`. -/
theorem c2_audio_delay_counterexample :
    buildStarts c2Build = [5]
    ∧ ("[1:a]anull[oa0]") ∈ buildFC c2Build
    ∧ (buildFC c2Build).filter (fun st => strContains ("adelay") st) = [] := by
  decide

/-- C2 (amended): for every audio clip whose file resolves, the builder
emits exactly one audio statement, `[i:a]` followed by the delay filter,
the volume filter and a fresh overlay label; the delay is
`startTimeSeconds * 1000` milliseconds when `startTimeSeconds` is present
and positive (the identity filter `anull` when it is absent or not
positive — not `absoluteStart * 1000`), and a volume-scaling step appears
exactly when the defaulted volume is not 100. -/
theorem c2_audio_statement (env : RenderEnv) (scaling : String) (width height : ℕ)
    (cursorFinal : ℚ) (s : BuildState) (a : AudioItem) (path : String)
    (hfile : env.fileMap a.filename = some path) :
    (buildStep env scaling width height cursorFinal s (.audio a)).map (fun s2 => s2.fc)
      = .ok (s.fc ++ ["[" ++ toString s.inputIndex ++ ":a]" ++ audioDelayFilter a
          ++ audioVolumeFilter a ++ ("[oa" ++ toString s.overlayAudioLabels.length ++ "]")])
    ∧ (a.volume.getD 100 = 100 → audioVolumeFilter a = "")
    ∧ (a.volume.getD 100 ≠ 100 →
        audioVolumeFilter a = ",volume=" ++ qToString (a.volume.getD 100 / 100))
    ∧ (a.startTime = some (5 / 2) → audioDelayFilter a = "adelay=2500|2500")
    ∧ (a.startTime = none → audioDelayFilter a = "anull") := by
  refine ⟨?_, ?_, ?_, ?_, ?_⟩
  · simp [buildStep, hfile, Except.map]
  · intro h
    simp [audioVolumeFilter, h]
  · intro h
    simp [audioVolumeFilter, h]
  · intro h
    simp only [audioDelayFilter, audioDelayMs, jsOr, h]
    norm_num
    decide
  · intro h
    simp [audioDelayFilter, audioDelayMs, jsOr, h]

/-- Witness for C2 at an audio clip with `startTime = 2.5` and default
volume: the delay filter is exactly `adelay=2500|2500` and there is no
volume-scaling step. -/
theorem c2_audio_statement_witness :
    env2.fileMap ("song.mp3") = some ("/uploads/song.mp3")
    ∧ ((buildStep env2 ("cover") 1280 720 0 (initBuildState 0) (.audio c2wAudio)).map
          (fun s2 => s2.fc)
        = .ok ((initBuildState 0).fc ++ ["[" ++ toString (initBuildState 0).inputIndex
            ++ ":a]" ++ audioDelayFilter c2wAudio ++ audioVolumeFilter c2wAudio
            ++ ("[oa" ++ toString (initBuildState 0).overlayAudioLabels.length ++ "]")]))
    ∧ audioDelayFilter c2wAudio = "adelay=2500|2500"
    ∧ audioVolumeFilter c2wAudio = "" :=
  ⟨rfl,
   (c2_audio_statement env2 ("cover") 1280 720 0 (initBuildState 0) c2wAudio
     ("/uploads/song.mp3") rfl).1,
   (c2_audio_statement env2 ("cover") 1280 720 0 (initBuildState 0) c2wAudio
     ("/uploads/song.mp3") rfl).2.2.2.1 rfl,
   (c2_audio_statement env2 ("cover") 1280 720 0 (initBuildState 0) c2wAudio
     ("/uploads/song.mp3") rfl).2.1 rfl⟩

set_option maxRecDepth 40000 in
/-- C3 counterexample: with `duration: 0` present and cut `[1, 4]`, the
resolved duration is the cut length 3, not the present override 0 (the
code tests the override for JS truthiness, not presence), as the
resolution step's resulting `totalDuration` shows. -/
theorem c3_resolve_counterexample :
    c3Audio.duration = some 0
    ∧ audioSegmentDuration env2 ("/uploads/song.mp3") c3Audio = 3
    ∧ (3 : ℚ) ≠ 0
    ∧ resolveStep env2 { totalDuration := 0, cursor := 0 } (.audio c3Audio)
        = .ok ({ totalDuration := 3, cursor := 0 }, some 0) := by
  decide

/-- C3 (amended): during timeline resolution an audio clip whose file
resolves and whose resolved duration is positive never advances the
cursor; its duration is the override when present and nonzero, else cut
end minus cut start when a cut is present, else the probed duration (5 on
probe failure, as the second conjunct shows); its absolute start is
`startTime` when present, else the cursor; and `totalDuration` becomes
`max(totalDuration, absoluteStart + duration)`. -/
theorem c3_audio_resolution (env : RenderEnv) (s : ResolveState) (a : AudioItem)
    (path : String) (hfile : env.fileMap a.filename = some path)
    (hpos : 0 < audioSegmentDuration env path a) :
    resolveStep env s (.audio a)
      = .ok ({ totalDuration := max s.totalDuration
                 (a.startTime.getD s.cursor + audioSegmentDuration env path a),
               cursor := s.cursor }, some (a.startTime.getD s.cursor))
    ∧ (env.probe path = none → a.cut = none → a.duration = none →
         audioSegmentDuration env path a = 5) := by
  constructor
  · simp [resolveStep, hfile, not_le.mpr hpos]
  · intro h1 h2 h3
    simp [audioSegmentDuration, probedDuration, h1, h2, h3]

/-- Witness for C3 at a concrete state and audio item. -/
theorem c3_audio_resolution_witness :
    env2.fileMap ("song.mp3") = some ("/uploads/song.mp3")
    ∧ (0 : ℚ) < audioSegmentDuration env2 ("/uploads/song.mp3") c3wAudio
    ∧ resolveStep env2 { totalDuration := 7, cursor := 2 } (.audio c3wAudio)
        = .ok ({ totalDuration := max 7 (c3wAudio.startTime.getD 2
                   + audioSegmentDuration env2 ("/uploads/song.mp3") c3wAudio),
                 cursor := 2 }, some (c3wAudio.startTime.getD 2)) :=
  ⟨rfl, by decide,
   (c3_audio_resolution env2 { totalDuration := 7, cursor := 2 } c3wAudio
     ("/uploads/song.mp3") rfl (by decide)).1⟩

set_option maxRecDepth 40000 in
/-- C4 counterexample: for a single-video timeline the builder does emit
copy statements for the lone video label — `[v0]copy[concatv]` and the
final `[concatv]copy[outv]` — so the single label is not passed through
without a redundant copy statement. -/
theorem c4_copy_counterexample :
    ("[v0]copy[concatv]") ∈ buildFC c4Build
    ∧ ("[concatv]copy[outv]") ∈ buildFC c4Build := by
  decide

set_option maxRecDepth 40000 in
/-- C4 (amended): when the resolved timeline yields exactly one video
label the builder emits zero concatenation statements, but it does not
pass the label through unchanged: it emits a copy statement into
`[concatv]` (and the final copy into `[outv]`), as both the stage function
and the concrete single-video build show. -/
theorem c4_single_video :
    (∀ l : String, videoReduce [l] = ([l ++ "copy[concatv]"], "[concatv]"))
    ∧ (buildFC c4Build).filter (fun st => strContains ("concat=n=") st) = []
    ∧ buildFC c4Build = [c4ScaleStmt, "[v0]copy[concatv]", "[concatv]copy[outv]"] := by
  refine ⟨fun l => rfl, by decide, by decide⟩

set_option maxRecDepth 40000 in
/-- C5 counterexample: for the audio-only timeline (zero video labels) the
builder completes successfully instead of failing with a "no video track"
error, and its program contains the dangling statement `copy[outv]` with an
empty input label. -/
theorem c5_no_video_counterexample :
    buildOk c5Build = true
    ∧ buildFC c5Build
        = ["[0:a]adelay=2000|2000[oa0]", "copy[outv]", "[oa0]aresample=async=1[outa]"] := by
  decide

/-- Anatomy of a failing `Except` bind: the error comes from the first
computation or from the continuation on its success value. -/
theorem except_bind_error {α β : Type} (x : Except String α)
    (k : α → Except String β) (e : String) (h : (x >>= k) = .error e) :
    x = .error e ∨ ∃ a, x = .ok a ∧ k a = .error e := by
  cases x with
  | error e1 =>
    left
    simp only [Bind.bind, Except.bind] at h
    injection h with h
    rw [h]
  | ok a =>
    right
    refine ⟨a, rfl, ?_⟩
    simpa only [Bind.bind, Except.bind] using h

/-- An error of an `Except`-valued left fold is an error of one of its
steps. -/
theorem foldlM_except_prop {α β : Type} (f : β → α → Except String β)
    (P : String → Prop) (hf : ∀ b a e, f b a = .error e → P e) :
    ∀ (l : List α) (b : β) (e : String), l.foldlM f b = .error e → P e := by
  intro l
  induction l with
  | nil =>
    intro b e h
    exact absurd h (by simp [List.foldlM, Pure.pure, Except.pure])
  | cons a l ih =>
    intro b e h
    simp only [List.foldlM] at h
    rcases except_bind_error _ _ _ h with h1 | ⟨b2, _, h2⟩
    · exact hf b a e h1
    · exact ih b2 e h2

/-- Every error thrown by the subtitle stage has length at least 17. -/
theorem subtitleStage_error_length (subtitles : Option (List Char)) (e : String)
    (h : subtitleStage subtitles = .error e) : 17 ≤ e.length := by
  unfold subtitleStage at h
  split at h
  · split at h
    · exact absurd h (by simp)
    · split at h
      · injection h with h
        subst h
        decide
      · exact absurd h (by simp)
  · exact absurd h (by simp)

/-- Every error thrown by the first (resolution) pass's step — a missing
file or an invalid audio cut — has length at least 17. -/
theorem resolveStep_error_length (env : RenderEnv) (s : ResolveState)
    (it : TimelineItem) (e : String)
    (h : resolveStep env s it = .error e) : 17 ≤ e.length := by
  have h19 : ("File not found for ").length = 19 := by decide
  have h23 : ("Invalid cut points for ").length = 23 := by decide
  cases it with
  | video v =>
    simp only [resolveStep] at h
    split at h
    · injection h with h
      subst h
      rw [String.length_append]
      omega
    · exact absurd h (by simp)
  | image im => exact absurd h (by simp [resolveStep])
  | audio a =>
    simp only [resolveStep] at h
    split at h
    · injection h with h
      subst h
      rw [String.length_append]
      omega
    · split at h
      · injection h with h
        subst h
        rw [String.length_append, String.length_append]
        omega
      · exact absurd h (by simp)
  | text t => exact absurd h (by simp [resolveStep])

/-- Every error of the whole first pass has length at least 17. -/
theorem resolvePass_error_length (env : RenderEnv) (items : List TimelineItem)
    (e : String) (h : resolvePass env items = .error e) : 17 ≤ e.length := by
  unfold resolvePass at h
  refine foldlM_except_prop _ (fun e2 => 17 ≤ e2.length) ?_ items _ e h
  intro b a e2 h2
  cases hres : resolveStep env b a with
  | error e3 =>
    rw [hres] at h2
    simp only [Except.map] at h2
    injection h2 with h2
    subst h2
    exact resolveStep_error_length env b a _ hres
  | ok r =>
    rw [hres] at h2
    exact absurd h2 (by simp [Except.map])

/-- Every error thrown by the second (input/statement) pass's step has
length at least 17. -/
theorem buildStep_error_length (env : RenderEnv) (scaling : String)
    (width height : ℕ) (cursorFinal : ℚ) (s : BuildState) (it : TimelineItem)
    (e : String) (h : buildStep env scaling width height cursorFinal s it = .error e) :
    17 ≤ e.length := by
  have h19 : ("File not found for ").length = 19 := by decide
  have h23 : ("Invalid cut points for ").length = 23 := by decide
  cases it with
  | video v =>
    simp only [buildStep] at h
    split at h
    · injection h with h
      subst h
      rw [String.length_append]
      omega
    · split at h
      · injection h with h
        subst h
        rw [String.length_append, String.length_append]
        omega
      · exact absurd h (by simp)
  | image im =>
    simp only [buildStep] at h
    split at h
    · injection h with h
      subst h
      rw [String.length_append]
      omega
    · exact absurd h (by simp)
  | audio a =>
    simp only [buildStep] at h
    split at h
    · injection h with h
      subst h
      rw [String.length_append]
      omega
    · exact absurd h (by simp)
  | text t => exact absurd h (by simp [buildStep])

/-- Every error of the whole second pass has length at least 17. -/
theorem buildPass_error_length (env : RenderEnv) (scaling : String)
    (width height : ℕ) (cursorFinal : ℚ) (items : List TimelineItem)
    (b0 : BuildState) (e : String)
    (h : items.foldlM (buildStep env scaling width height cursorFinal) b0 = .error e) :
    17 ≤ e.length :=
  foldlM_except_prop _ (fun e2 => 17 ≤ e2.length)
    (fun b a e2 h2 => buildStep_error_length env scaling width height cursorFinal b a e2 h2)
    items b0 e h

/-- Every error thrown by the text compositing chain — an invalid style —
has length at least 17. -/
theorem applyTextItems_error_length :
    ∀ (ts : List TextItem) (styles : StylesMap) (fvl : String) (k : ℕ) (e : String),
      applyTextItems styles fvl k ts = .error e → 17 ≤ e.length := by
  intro ts
  induction ts with
  | nil =>
    intro styles fvl k e h
    exact absurd h (by simp [applyTextItems])
  | cons t ts ih =>
    intro styles fvl k e h
    have h20 : ("Invalid text style: ").length = 20 := by decide
    simp only [applyTextItems] at h
    split at h
    · injection h with h
      subst h
      rw [String.length_append]
      omega
    · split at h
      · rename_i e1 hrec
        injection h with h
        subst h
        exact ih _ _ _ _ hrec
      · exact absurd h (by simp)

/-- Every error `renderJobBuild` can return has length at least 17: it is
the empty-timeline, subtitle-parse, file-lookup, cut-validation or
text-style message, never anything shorter. -/
theorem renderJobBuild_error_length (env : RenderEnv) (styles : StylesMap)
    (scaling : String) (width height : ℕ) (timeline : List TimelineItem)
    (subtitles : Option (List Char)) (e : String)
    (h : renderJobBuild env styles scaling width height timeline subtitles = .error e) :
    17 ≤ e.length := by
  unfold renderJobBuild at h
  split at h
  · injection h with h
    subst h
    decide
  · rcases except_bind_error _ _ _ h with h1 | ⟨its, _, h⟩
    · exact subtitleStage_error_length subtitles e h1
    rcases except_bind_error _ _ _ h with h1 | ⟨rs, _, h⟩
    · exact resolvePass_error_length env _ e h1
    rcases except_bind_error _ _ _ h with h1 | ⟨bs, _, h⟩
    · exact buildPass_error_length env scaling width height _ _ _ e h1
    rcases except_bind_error _ _ _ h with h1 | ⟨tr, _, h⟩
    · exact applyTextItems_error_length _ _ _ _ e h1
    · exact absurd h (by simp)

/-- C5 (amended): the filter-graph builder never fails with a
`no video track` error — no failure of any build, in particular of any
resolved timeline yielding zero video labels, carries that message — and a
zero-video timeline need not fail at all: a single-item audio timeline
whose file resolves and whose resolved duration is positive builds
successfully, its program containing the dangling pass-through statement
`copy[outv]` with an empty input label. -/
theorem c5_zero_video :
    (∀ (env : RenderEnv) (styles : StylesMap) (scaling : String) (width height : ℕ)
        (timeline : List TimelineItem) (subtitles : Option (List Char)) (e : String),
        renderJobBuild env styles scaling width height timeline subtitles = .error e →
        e ≠ "no video track")
    ∧ (∀ (env : RenderEnv) (styles : StylesMap) (scaling : String) (width height : ℕ)
        (a : AudioItem) (path : String),
        env.fileMap a.filename = some path →
        0 < audioSegmentDuration env path a →
        buildOk (renderJobBuild env styles scaling width height [.audio a] none) = true
        ∧ ("copy[outv]") ∈ buildFC (renderJobBuild env styles scaling width height
            [.audio a] none)) := by
  constructor
  · intro env styles scaling width height timeline subtitles e h hne
    have hlen := renderJobBuild_error_length env styles scaling width height
      timeline subtitles e h
    rw [hne] at hlen
    exact absurd hlen (by decide)
  · intro env styles scaling width height a path hfile hpos
    simp [renderJobBuild, subtitleStage, resolvePass, resolveStep, buildStep, hfile,
          not_le.mpr hpos, videoReduce, applyTextItems, audioReduce, buildOk, buildFC,
          initBuildState, List.foldlM, Except.map, Bind.bind, Except.bind,
          Pure.pure, Except.pure]

set_option maxRecDepth 40000 in
/-- Witness for C5: a concrete failing build (missing file) whose error
message is not `no video track`, and the concrete audio-only scenario that
builds successfully with the dangling copy statement. -/
theorem c5_zero_video_witness :
    renderJobBuild env8 (TEXT_STYLES0 ("fonts")) ("cover") 1280 720
        [.video { filename := "missing.mp4" }] none
      = .error ("File not found for missing.mp4")
    ∧ ("File not found for missing.mp4" : String) ≠ "no video track"
    ∧ env2.fileMap ("song.mp3") = some ("/uploads/song.mp3")
    ∧ (0 : ℚ) < audioSegmentDuration env2 ("/uploads/song.mp3") c3wAudio
    ∧ (buildOk (renderJobBuild env2 (TEXT_STYLES0 ("fonts")) ("cover") 1280 720
          [.audio c3wAudio] none) = true
       ∧ ("copy[outv]") ∈ buildFC (renderJobBuild env2 (TEXT_STYLES0 ("fonts")) ("cover")
          1280 720 [.audio c3wAudio] none)) :=
  ⟨by decide,
   c5_zero_video.1 env8 (TEXT_STYLES0 ("fonts")) ("cover") 1280 720
     [.video { filename := "missing.mp4" }] none ("File not found for missing.mp4")
     (by decide),
   rfl, by decide,
   c5_zero_video.2 env2 (TEXT_STYLES0 ("fonts")) ("cover") 1280 720 c3wAudio
     ("/uploads/song.mp3") rfl (by decide)⟩

end FFmux
